import Mathlib

/-!
Verification of the replay-buffer selection and configuration logic of
`rls/common/agent.py` (the `Agent` facade of the RLs repository), together
with the configuration-update helper `UpdateConfig` and the `Agent.run`
dispatcher.  Python dictionaries of fixed shape are embedded as Lean
structures; dictionaries of open key sets (`UpdateConfig`) are embedded as
functions `String → Option V`; Python floats (the discount `gamma`) are
embedded as rationals; missing dictionary keys read with `.get(key, default)`
are embedded as `Option` fields read with `Option.getD`.
-/

namespace RLs

/-- Boolean test that the character list `hay` starts with `needle`
(component of the embedding of Python's substring operator `in`). -/
def startsWithL : List Char → List Char → Bool
  | _, [] => true
  | [], _ :: _ => false
  | a :: as, b :: bs => (a == b) && startsWithL as bs

/-- Boolean test that `needle` occurs as a contiguous substring of `hay`,
at character-list level. -/
def containsL : List Char → List Char → Bool
  | [], needle => needle.isEmpty
  | a :: as, needle => startsWithL (a :: as) needle || containsL as needle

/-- Embedding of Python's `needle in hay` on strings (substring test),
used by `agent.py` as `'Nstep' in self.buffer_args['type']`. -/
def strContains (hay needle : String) : Bool :=
  containsL hay.toList needle.toList

/-- Per-variant sub-dictionary of `buffer_args` (the nested dictionaries
`buffer_args['ER']`, `buffer_args['PER']`, `buffer_args['NstepER']`,
`buffer_args['NstepPER']`, `buffer_args['EpisodeER']` of the YAML buffer
configuration).  Fields that `Agent.__init__` may write are `Option`s so
that "the key was never assigned" is observable. -/
structure BufferVariantArgs where
  n : Nat := 1
  gamma : Option ℚ := none
  max_train_step : Option Nat := none
  agents_num : Option Nat := none
  burn_in_time_step : Option Nat := none
  train_time_step : Option Nat := none
  deriving DecidableEq, Repr

/-- The `buffer_args` configuration dictionary manipulated by
`Agent.__init__` (lines 110-154 of `agent.py`). -/
structure BufferArgs where
  type : String := ""
  batch_size : Nat := 0
  buffer_size : Nat := 0
  ER : BufferVariantArgs := {}
  PER : BufferVariantArgs := {}
  NstepER : BufferVariantArgs := {}
  NstepPER : BufferVariantArgs := {}
  EpisodeER : BufferVariantArgs := {}
  deriving DecidableEq, Repr

/-- The algorithm configuration dictionary `algo_args` as it stands at line
110 of `agent.py` (after `use_rnn` has been copied from `model_args`).
Keys read with `.get(k, default)` in the source are `Option` fields. -/
structure AlgoArgs where
  use_rnn : Bool := false
  use_priority : Option Bool := none
  n_step : Option Bool := none
  gamma : ℚ := 0
  batch_size : Option Nat := none
  buffer_size : Option Nat := none
  episode_batch_size : Option Nat := none
  episode_buffer_size : Option Nat := none
  burn_in_time_step : Option Nat := none
  train_time_step : Option Nat := none
  deriving DecidableEq, Repr

/-- The part of the training configuration dictionary `train_args` that the
buffer-selection code reads and writes. -/
structure TrainArgs where
  max_train_step : Nat := 0
  pre_fill_steps : Nat := 0
  deriving DecidableEq, Repr

/-- Reading the sub-dictionary `buffer_args[ty]` selected by the dynamic key
`ty` (the source indexes `self.buffer_args[self.buffer_args['type']]`). -/
def varArgs (b : BufferArgs) (ty : String) : BufferVariantArgs :=
  if ty = "ER" then b.ER
  else if ty = "PER" then b.PER
  else if ty = "NstepER" then b.NstepER
  else if ty = "NstepPER" then b.NstepPER
  else if ty = "EpisodeER" then b.EpisodeER
  else {}

/-- Writing through the sub-dictionary `buffer_args[ty]` selected by the
dynamic key `ty`. -/
def setVarArgs (b : BufferArgs) (ty : String) (f : BufferVariantArgs → BufferVariantArgs) :
    BufferArgs :=
  if ty = "ER" then { b with ER := f b.ER }
  else if ty = "PER" then { b with PER := f b.PER }
  else if ty = "NstepER" then { b with NstepER := f b.NstepER }
  else if ty = "NstepPER" then { b with NstepPER := f b.NstepPER }
  else if ty = "EpisodeER" then { b with EpisodeER := f b.EpisodeER }
  else b

/-- Embedding of the buffer-variant selection of `Agent.__init__`
(`agent.py` lines 110-140): given the policy mode, the algorithm
configuration, the training configuration and the incoming buffer
configuration, it returns the three configurations as the block leaves
them.  Mirrors the source branch for branch:

* off-policy and `use_rnn == True`: variant `EpisodeER`, batch/buffer sizes
  from `episode_batch_size`/`episode_buffer_size`, burn-in and segment
  lengths copied into the `EpisodeER` sub-dictionary;
* off-policy otherwise: batch/buffer sizes from `batch_size`/`buffer_size`,
  then `NstepPER` / `PER` / `NstepER` / `ER` on the truthiness of
  `use_priority` and `n_step`; the priority variants receive
  `max_train_step`, the n-step variants receive the original `gamma` while
  `algo_args['gamma']` is replaced by `gamma ^ n`;
* on-policy: variant `"None"` and `pre_fill_steps` overwritten to 0. -/
def bufferSelect (policy_mode : String) (a : AlgoArgs) (t : TrainArgs) (b : BufferArgs) :
    BufferArgs × AlgoArgs × TrainArgs :=
  if policy_mode = "off-policy" then
    if a.use_rnn = true then
      let b := { b with
        type := "EpisodeER"
        batch_size := a.episode_batch_size.getD 0
        buffer_size := a.episode_buffer_size.getD 0
        EpisodeER := { b.EpisodeER with
          burn_in_time_step := some (a.burn_in_time_step.getD 0)
          train_time_step := some (a.train_time_step.getD 0) } }
      (b, a, t)
    else
      let b := { b with
        batch_size := a.batch_size.getD 0
        buffer_size := a.buffer_size.getD 0 }
      let use_priority := a.use_priority.getD false
      let n_step := a.n_step.getD false
      if use_priority && n_step then
        let b := { b with
          type := "NstepPER"
          NstepPER := { b.NstepPER with
            max_train_step := some t.max_train_step
            gamma := some a.gamma } }
        let a := { a with gamma := a.gamma ^ b.NstepPER.n }
        (b, a, t)
      else if use_priority then
        let b := { b with
          type := "PER"
          PER := { b.PER with max_train_step := some t.max_train_step } }
        (b, a, t)
      else if n_step then
        let b := { b with
          type := "NstepER"
          NstepER := { b.NstepER with gamma := some a.gamma } }
        let a := { a with gamma := a.gamma ^ b.NstepER.n }
        (b, a, t)
      else
        ({ b with type := "ER" }, a, t)
  else
    ({ b with type := "None" }, a, { t with pre_fill_steps := 0 })

/-- Embedding of the `agents_num` assignment placed immediately before each
`get_buffer` call (`agent.py` lines 152-153, 195-196, 237-238): when the
selected type contains `'Nstep'` or `'Episode'`, the sub-dictionary named by
the type receives `agents_num`; otherwise nothing is written.  `num` is the
agent count of the surrounding branch (`env_args['env_num']` for gym and
multi-agent unity, `env.brain_agents[i]` for single-agent unity). -/
def setAgentsNum (num : Nat) (b : BufferArgs) : BufferArgs :=
  if strContains b.type "Nstep" || strContains b.type "Episode" then
    setVarArgs b b.type (fun v => { v with agents_num := some num })
  else b

/-- The buffer-configuration pipeline of `Agent.__init__` up to the
`get_buffer` call: variant selection followed by the `agents_num`
assignment. -/
def agentInitBufferArgs (policy_mode : String) (num : Nat) (a : AlgoArgs) (t : TrainArgs)
    (b : BufferArgs) : BufferArgs × AlgoArgs × TrainArgs :=
  let r := bufferSelect policy_mode a t b
  (setAgentsNum num r.1, r.2.1, r.2.2)

/-- Error taxonomy of the replay-buffer subsystem per the specification. -/
inductive BufferError where
  | ConfigurationError
  | EmptyStoreError
  | InvalidPriorityError
  | LengthMismatchError
  deriving DecidableEq, Repr

/-- The replay buffer object produced by the buffer factory, reduced to the
construction-time data the claims mention. -/
structure ConstructedBuffer where
  variant : String
  capacity : Nat
  batch_size : Nat
  n : Nat
  deriving DecidableEq, Repr

/-- Modelled from the spec: the buffer factory `get_buffer`
(`rls/parse/parse_buffer.py`) and the buffer classes it instantiates are
not part of the sources under verification; only their caller
`Agent.__init__` is.  Following the specification, construction validates
the enumerated configuration (`capacity: int>0`, `batch_size: int>0`,
`n: int≥1` for the n-step variants) and fails with `ConfigurationError` on
an invalid combination, e.g. `n<1` for an n-step variant or
`capacity<batch_size`, synchronously and with no silent clamping; a
`"None"` type (on-policy) constructs no buffer. -/
def get_buffer (b : BufferArgs) : Except BufferError (Option ConstructedBuffer) :=
  if b.type = "None" then .ok none
  else if ¬ (b.type = "ER" ∨ b.type = "PER" ∨ b.type = "NstepER" ∨ b.type = "NstepPER" ∨
      b.type = "EpisodeER") then .error .ConfigurationError
  else if strContains b.type "Nstep" && decide ((varArgs b b.type).n < 1) then
    .error .ConfigurationError
  else if b.buffer_size < b.batch_size then .error .ConfigurationError
  else if b.buffer_size = 0 ∨ b.batch_size = 0 then .error .ConfigurationError
  else
    .ok (some { variant := b.type, capacity := b.buffer_size, batch_size := b.batch_size,
                n := (varArgs b b.type).n })

/-- The state of an `Agent` object after `__init__`, reduced to the fields
the claims mention: the environment kind, the buffer configuration, the
constructed buffer the model holds, the training configuration, and whether
`model.close()` / `env.close()` have run.  The external trainer and
inference routines (`gym_train`, `unity_train`, ...) act on the environment
and model internals only; their only effect on these fields is through the
`finally` blocks of `Agent.train`, which close the model and the
environment. -/
structure AgentState where
  env_type : String
  multi_agents_training : Bool
  buffer_args : BufferArgs
  buffer : Option ConstructedBuffer
  train_args : TrainArgs
  model_closed : Bool
  env_closed : Bool
  deriving DecidableEq, Repr

namespace Agent

/-- Embedding of `Agent.__init__` restricted to the gym branch: buffer
variant selection, the `agents_num` assignment, then the `get_buffer` call;
the resulting buffer is handed to the model (`model.set_buffer(buffer)`). -/
def init (env_type policy_mode : String) (multi : Bool) (env_num : Nat) (a : AlgoArgs)
    (t : TrainArgs) (b : BufferArgs) : Except BufferError AgentState :=
  let r := agentInitBufferArgs policy_mode env_num a t b
  match get_buffer r.1 with
  | .error e => .error e
  | .ok buf => .ok { env_type := env_type, multi_agents_training := multi,
                     buffer_args := r.1, buffer := buf, train_args := r.2.2,
                     model_closed := false, env_closed := false }

/-- Embedding of `Agent.train` (`agent.py` lines 287-388): each of the three
branches (gym, multi-agent unity, single-agent unity) runs the external
no-op/train routines on the environment and model and, in its `finally`
block, closes the model(s) and the environment; no field of the agent is
reassigned. -/
def train (s : AgentState) : AgentState :=
  if s.env_type = "gym" then
    { s with model_closed := true, env_closed := true }
  else if s.multi_agents_training then
    { s with model_closed := true, env_closed := true }
  else
    { s with model_closed := true, env_closed := true }

/-- Embedding of `Agent.evaluate` (`agent.py` lines 390-409): each branch
calls an external inference routine; no field of the agent is reassigned
and nothing is closed. -/
def evaluate (s : AgentState) : AgentState :=
  s

/-- Embedding of `Agent.run` (`agent.py` lines 411-419): dispatch on the
mode string; the three known modes hand the agent's environment and models
to an Apex worker/learner/buffer role, any other mode raises
`Exception('unknown mode')`. -/
def run (s : AgentState) (mode : String) : Except String AgentState :=
  if mode = "worker" then .ok s
  else if mode = "learner" then .ok s
  else if mode = "buffer" then .ok s
  else .error "unknown mode"

end Agent

/-- Embedding of `UpdateConfig` (`agent.py` lines 54-72).  The current
configuration is a dictionary `String → Option V`; the loaded file content
is a dictionary of sections, each section a key/value list in iteration
order (a Python dict, so its keys are pairwise distinct).  `_config[key_name]`
raises on a missing section, so the call returns nothing in that case;
otherwise each listed key is assigned into the configuration in order and
the updated configuration is returned. -/
def UpdateConfig {V : Type} (config : String → Option V)
    (fileContent : String → Option (List (String × V))) (key_name : String) :
    Option (String → Option V) :=
  match fileContent key_name with
  | none => none
  | some key_values =>
      some (key_values.foldl (fun c kv => fun k => if k = kv.1 then some kv.2 else c k) config)

/-- A concrete algorithm configuration: off-policy, no recurrence, both
priority replay and n-step returns enabled. -/
def exAlgo : AlgoArgs :=
  { use_rnn := false, use_priority := some true, n_step := some true, gamma := 99 / 100,
    batch_size := some 32, buffer_size := some 10000 }

/-- A concrete algorithm configuration with recurrence enabled. -/
def exAlgoRnn : AlgoArgs :=
  { use_rnn := true, gamma := 99 / 100, episode_batch_size := some 16,
    episode_buffer_size := some 500, burn_in_time_step := some 10, train_time_step := some 40 }

/-- A concrete training configuration (with a nonzero `pre_fill_steps`). -/
def exTrain : TrainArgs :=
  { max_train_step := 2000000, pre_fill_steps := 7 }

/-- A concrete incoming buffer configuration with `n = 4` in both n-step
sub-dictionaries. -/
def exBuffer : BufferArgs :=
  { NstepPER := { n := 4 }, NstepER := { n := 4 } }

/-- A concrete agent state as left by `Agent.init`. -/
def exAgent : AgentState :=
  { env_type := "gym", multi_agents_training := false,
    buffer_args := { type := "ER", batch_size := 32, buffer_size := 10000 },
    buffer := some { variant := "ER", capacity := 10000, batch_size := 32, n := 1 },
    train_args := exTrain, model_closed := false, env_closed := false }

/-- An invalid buffer configuration: the n-step variant `NstepER` with
`n = 0`. -/
def exBadNstep : BufferArgs :=
  { type := "NstepER", batch_size := 32, buffer_size := 10000, NstepER := { n := 0 } }

/-- An invalid buffer configuration: capacity 10 below batch size 32. -/
def exBadCapacity : BufferArgs :=
  { type := "ER", batch_size := 32, buffer_size := 10 }

/-- A concrete current configuration for `UpdateConfig`. -/
def exConfig : String → Option Nat :=
  fun k => if k = "gamma" then some 1 else if k = "lr" then some 2 else none

/-- A concrete loaded configuration file with an `algo` section. -/
def exFile : String → Option (List (String × Nat)) :=
  fun k => if k = "algo" then some [("gamma", 5), ("n_step", 9)] else none

end RLs

namespace RLs

/-- C1: at buffer construction for an off-policy algorithm, the variant is
selected from algorithm properties as follows: if `use_rnn` is true the
variant is `EpisodeER`; otherwise the variant is `NstepPER` when both
`use_priority` and `n_step` are set, `PER` when only `use_priority` is set,
`NstepER` when only `n_step` is set, and `ER` when neither is set. -/
theorem bufferSelect_offPolicy_variant (pm : String) (a : AlgoArgs) (t : TrainArgs)
    (b : BufferArgs) (h : pm = "off-policy") :
    (bufferSelect pm a t b).1.type =
      if a.use_rnn = true then "EpisodeER"
      else if a.use_priority.getD false && a.n_step.getD false then "NstepPER"
      else if a.use_priority.getD false then "PER"
      else if a.n_step.getD false then "NstepER"
      else "ER" := by
  subst h
  cases hr : a.use_rnn <;> cases hup : a.use_priority.getD false <;>
    cases hns : a.n_step.getD false <;> simp [bufferSelect, hr, hup, hns]

/-- Witness for C1 at a concrete off-policy configuration with priority and
n-step both enabled. -/
theorem bufferSelect_offPolicy_variant_witness :
    (bufferSelect "off-policy" exAlgo exTrain exBuffer).1.type = "NstepPER" := by
  rw [bufferSelect_offPolicy_variant "off-policy" exAlgo exTrain exBuffer rfl]
  decide

/-- C2: for the n-step variants `NstepER` and `NstepPER`, at construction
the buffer's variant configuration receives the original discount `gamma`
and the algorithm's `gamma` is replaced by `gamma` raised to the power `n`,
computed at buffer construction. -/
theorem bufferSelect_nstep_gamma (pm : String) (a : AlgoArgs) (t : TrainArgs)
    (b : BufferArgs) (h : pm = "off-policy") (hr : a.use_rnn = false) :
    (a.use_priority.getD false = true → a.n_step.getD false = true →
      (bufferSelect pm a t b).1.NstepPER.gamma = some a.gamma ∧
      (bufferSelect pm a t b).2.1.gamma = a.gamma ^ b.NstepPER.n) ∧
    (a.use_priority.getD false = false → a.n_step.getD false = true →
      (bufferSelect pm a t b).1.NstepER.gamma = some a.gamma ∧
      (bufferSelect pm a t b).2.1.gamma = a.gamma ^ b.NstepER.n) := by
  subst h
  constructor <;> intro hup hns <;> simp [bufferSelect, hr, hup, hns]

/-- Witness for C2 at a concrete configuration: with `gamma = 99/100` and
`n = 4`, the `NstepPER` sub-dictionary receives `99/100` and the algorithm's
`gamma` becomes `(99/100)^4`. -/
theorem bufferSelect_nstep_gamma_witness :
    (bufferSelect "off-policy" exAlgo exTrain exBuffer).1.NstepPER.gamma = some (99 / 100) ∧
    (bufferSelect "off-policy" exAlgo exTrain exBuffer).2.1.gamma = (99 / 100 : ℚ) ^ 4 := by
  have h := (bufferSelect_nstep_gamma "off-policy" exAlgo exTrain exBuffer rfl rfl).1 rfl rfl
  exact ⟨h.1, h.2⟩

/-- C5: for every off-policy algorithm with `use_rnn` true, construction
selects the `EpisodeER` variant and sets its batch size, buffer size,
burn-in length and segment length from the algorithm configuration keys
`episode_batch_size`, `episode_buffer_size`, `burn_in_time_step` and
`train_time_step` respectively. -/
theorem bufferSelect_rnn_episodeER (pm : String) (a : AlgoArgs) (t : TrainArgs)
    (b : BufferArgs) (h : pm = "off-policy") (hr : a.use_rnn = true) :
    (bufferSelect pm a t b).1.type = "EpisodeER" ∧
    (bufferSelect pm a t b).1.batch_size = a.episode_batch_size.getD 0 ∧
    (bufferSelect pm a t b).1.buffer_size = a.episode_buffer_size.getD 0 ∧
    (bufferSelect pm a t b).1.EpisodeER.burn_in_time_step = some (a.burn_in_time_step.getD 0) ∧
    (bufferSelect pm a t b).1.EpisodeER.train_time_step = some (a.train_time_step.getD 0) := by
  subst h
  simp [bufferSelect, hr]

/-- Witness for C5 at a concrete recurrent configuration. -/
theorem bufferSelect_rnn_episodeER_witness :
    (bufferSelect "off-policy" exAlgoRnn exTrain exBuffer).1.type = "EpisodeER" ∧
    (bufferSelect "off-policy" exAlgoRnn exTrain exBuffer).1.batch_size = 16 ∧
    (bufferSelect "off-policy" exAlgoRnn exTrain exBuffer).1.buffer_size = 500 ∧
    (bufferSelect "off-policy" exAlgoRnn exTrain exBuffer).1.EpisodeER.burn_in_time_step = some 10 ∧
    (bufferSelect "off-policy" exAlgoRnn exTrain exBuffer).1.EpisodeER.train_time_step = some 40 := by
  have h := bufferSelect_rnn_episodeER "off-policy" exAlgoRnn exTrain exBuffer rfl rfl
  exact ⟨h.1, h.2.1.trans (by decide), h.2.2.1.trans (by decide), h.2.2.2.1.trans (by decide),
    h.2.2.2.2.trans (by decide)⟩

/-- C8: for every on-policy algorithm configuration, construction selects no
replay variant (type `"None"`) and overwrites the training configuration's
`pre_fill_steps` to 0, regardless of the caller-configured value. -/
theorem bufferSelect_onPolicy_none (pm : String) (a : AlgoArgs) (t : TrainArgs)
    (b : BufferArgs) (h : pm ≠ "off-policy") :
    (bufferSelect pm a t b).1.type = "None" ∧
    (bufferSelect pm a t b).2.2.pre_fill_steps = 0 := by
  simp [bufferSelect, h]

/-- Witness for C8 at the on-policy mode with caller-configured
`pre_fill_steps = 7`. -/
theorem bufferSelect_onPolicy_none_witness :
    exTrain.pre_fill_steps = 7 ∧
    (bufferSelect "on-policy" exAlgo exTrain exBuffer).1.type = "None" ∧
    (bufferSelect "on-policy" exAlgo exTrain exBuffer).2.2.pre_fill_steps = 0 :=
  ⟨by decide, bufferSelect_onPolicy_none "on-policy" exAlgo exTrain exBuffer (by decide)⟩

/-- C6: for every configuration whose selected variant type contains
`'Nstep'` or `'Episode'`, construction sets that variant's `agents_num`
field to the agent count before the buffer is built; for the other types
no `agents_num` field of any sub-dictionary is touched. -/
theorem agentInit_agents_num (pm : String) (num : Nat) (a : AlgoArgs) (t : TrainArgs)
    (b : BufferArgs) :
    ((strContains (agentInitBufferArgs pm num a t b).1.type "Nstep" ||
        strContains (agentInitBufferArgs pm num a t b).1.type "Episode") = true →
      (varArgs (agentInitBufferArgs pm num a t b).1
          (agentInitBufferArgs pm num a t b).1.type).agents_num = some num) ∧
    ((strContains (agentInitBufferArgs pm num a t b).1.type "Nstep" ||
        strContains (agentInitBufferArgs pm num a t b).1.type "Episode") = false →
      (agentInitBufferArgs pm num a t b).1.ER.agents_num = b.ER.agents_num ∧
      (agentInitBufferArgs pm num a t b).1.PER.agents_num = b.PER.agents_num ∧
      (agentInitBufferArgs pm num a t b).1.NstepER.agents_num = b.NstepER.agents_num ∧
      (agentInitBufferArgs pm num a t b).1.NstepPER.agents_num = b.NstepPER.agents_num ∧
      (agentInitBufferArgs pm num a t b).1.EpisodeER.agents_num = b.EpisodeER.agents_num) := by
  by_cases h : pm = "off-policy"
  · subst h
    cases hr : a.use_rnn <;> cases hup : a.use_priority.getD false <;>
      cases hns : a.n_step.getD false <;>
      constructor <;>
      simp [agentInitBufferArgs, bufferSelect, setAgentsNum, setVarArgs, varArgs, strContains,
        startsWithL, containsL, hr, hup, hns]
  · constructor <;>
      simp [agentInitBufferArgs, bufferSelect, setAgentsNum, setVarArgs, varArgs, strContains,
        startsWithL, containsL, h]

/-- Witness for C6: at a concrete off-policy priority+n-step configuration
with 4 environments, the selected `NstepPER` sub-dictionary receives
`agents_num = 4`. -/
theorem agentInit_agents_num_witness :
    (varArgs (agentInitBufferArgs "off-policy" 4 exAlgo exTrain exBuffer).1
        (agentInitBufferArgs "off-policy" 4 exAlgo exTrain exBuffer).1.type).agents_num =
      some 4 :=
  (agentInit_agents_num "off-policy" 4 exAlgo exTrain exBuffer).1 (by decide)

/-- C7: for exactly the priority-indexed variants `PER` and `NstepPER`,
construction supplies the training step budget `max_train_step` to the
selected variant's configuration; under every other selected type, every
sub-dictionary's `max_train_step` is left unchanged (and even under the
priority types only the selected sub-dictionary receives it). -/
theorem bufferSelect_priority_max_train_step (pm : String) (a : AlgoArgs) (t : TrainArgs)
    (b : BufferArgs) :
    ((bufferSelect pm a t b).1.type = "NstepPER" →
      (bufferSelect pm a t b).1.NstepPER.max_train_step = some t.max_train_step ∧
      (bufferSelect pm a t b).1.ER.max_train_step = b.ER.max_train_step ∧
      (bufferSelect pm a t b).1.PER.max_train_step = b.PER.max_train_step ∧
      (bufferSelect pm a t b).1.NstepER.max_train_step = b.NstepER.max_train_step ∧
      (bufferSelect pm a t b).1.EpisodeER.max_train_step = b.EpisodeER.max_train_step) ∧
    ((bufferSelect pm a t b).1.type = "PER" →
      (bufferSelect pm a t b).1.PER.max_train_step = some t.max_train_step ∧
      (bufferSelect pm a t b).1.ER.max_train_step = b.ER.max_train_step ∧
      (bufferSelect pm a t b).1.NstepER.max_train_step = b.NstepER.max_train_step ∧
      (bufferSelect pm a t b).1.NstepPER.max_train_step = b.NstepPER.max_train_step ∧
      (bufferSelect pm a t b).1.EpisodeER.max_train_step = b.EpisodeER.max_train_step) ∧
    ((bufferSelect pm a t b).1.type = "ER" ∨ (bufferSelect pm a t b).1.type = "NstepER" ∨
        (bufferSelect pm a t b).1.type = "EpisodeER" ∨
        (bufferSelect pm a t b).1.type = "None" →
      (bufferSelect pm a t b).1.ER.max_train_step = b.ER.max_train_step ∧
      (bufferSelect pm a t b).1.PER.max_train_step = b.PER.max_train_step ∧
      (bufferSelect pm a t b).1.NstepER.max_train_step = b.NstepER.max_train_step ∧
      (bufferSelect pm a t b).1.NstepPER.max_train_step = b.NstepPER.max_train_step ∧
      (bufferSelect pm a t b).1.EpisodeER.max_train_step = b.EpisodeER.max_train_step) := by
  by_cases h : pm = "off-policy"
  · subst h
    cases hr : a.use_rnn <;> cases hup : a.use_priority.getD false <;>
      cases hns : a.n_step.getD false <;>
      refine ⟨?_, ?_, ?_⟩ <;>
      simp [bufferSelect, hr, hup, hns]
  · refine ⟨?_, ?_, ?_⟩ <;> simp [bufferSelect, h]

/-- Witness for C7: at a concrete off-policy priority+n-step configuration,
the selected type is `NstepPER` and its sub-dictionary receives
`max_train_step = 2000000`. -/
theorem bufferSelect_priority_max_train_step_witness :
    (bufferSelect "off-policy" exAlgo exTrain exBuffer).1.NstepPER.max_train_step =
      some 2000000 := by
  have h := ((bufferSelect_priority_max_train_step "off-policy" exAlgo exTrain
    exBuffer).1 (by decide)).1
  exact h.trans (by decide)

/-- C3: buffer construction fails with `ConfigurationError`, synchronously
at the constructing call and with no silent clamping, on an invalid
configuration combination: for any buffer configuration of a valid variant
type, if the type is an n-step variant with `n < 1`, or
`capacity < batch_size`, then `get_buffer` returns `ConfigurationError`. -/
theorem get_buffer_invalid_config (b : BufferArgs)
    (hty : b.type = "ER" ∨ b.type = "PER" ∨ b.type = "NstepER" ∨ b.type = "NstepPER" ∨
      b.type = "EpisodeER")
    (hbad : (strContains b.type "Nstep" = true ∧ (varArgs b b.type).n < 1) ∨
      b.buffer_size < b.batch_size) :
    get_buffer b = .error .ConfigurationError := by
  have hne : ¬ b.type = "None" := by
    rcases hty with h | h | h | h | h <;> rw [h] <;> decide
  rw [get_buffer, if_neg hne, if_neg (not_not_intro hty)]
  by_cases hn : (strContains b.type "Nstep" && decide ((varArgs b b.type).n < 1)) = true
  · rw [if_pos hn]
  · rw [if_neg hn]
    rcases hbad with ⟨h1, h2⟩ | hlt
    · exact absurd (by rw [h1, decide_eq_true h2]; rfl) hn
    · rw [if_pos hlt]

/-- Witness for C3: an `NstepER` configuration with `n = 0` is rejected, as
is an `ER` configuration whose capacity 10 is below its batch size 32. -/
theorem get_buffer_invalid_config_witness :
    get_buffer exBadNstep = .error .ConfigurationError ∧
    get_buffer exBadCapacity = .error .ConfigurationError :=
  ⟨get_buffer_invalid_config exBadNstep (by decide) (by decide),
   get_buffer_invalid_config exBadCapacity (by decide) (by decide)⟩

/-- C4: the buffer variant is fixed after construction: `Agent.train` and
`Agent.evaluate` leave the constructed buffer and the selected variant type
unchanged, and whenever `Agent.run` returns an agent state, that state has
the same constructed buffer and variant type. -/
theorem agent_ops_preserve_variant (s : AgentState) :
    (Agent.train s).buffer = s.buffer ∧
    (Agent.train s).buffer_args.type = s.buffer_args.type ∧
    (Agent.evaluate s).buffer = s.buffer ∧
    (Agent.evaluate s).buffer_args.type = s.buffer_args.type ∧
    (∀ mode s', Agent.run s mode = .ok s' →
      s'.buffer = s.buffer ∧ s'.buffer_args.type = s.buffer_args.type) := by
  refine ⟨?_, ?_, rfl, rfl, ?_⟩
  · unfold Agent.train; split <;> [rfl; split <;> rfl]
  · unfold Agent.train; split <;> [rfl; split <;> rfl]
  · intro mode s' h
    unfold Agent.run at h
    split at h
    · cases h; exact ⟨rfl, rfl⟩
    · split at h
      · cases h; exact ⟨rfl, rfl⟩
      · split at h
        · cases h; exact ⟨rfl, rfl⟩
        · cases h

/-- Witness for C4 at a concrete constructed agent state and the `worker`
mode. -/
theorem agent_ops_preserve_variant_witness :
    (Agent.train exAgent).buffer = exAgent.buffer ∧
    (Agent.train exAgent).buffer_args.type = exAgent.buffer_args.type ∧
    Agent.run exAgent "worker" = .ok exAgent := by
  have h := agent_ops_preserve_variant exAgent
  exact ⟨h.1, h.2.1, rfl⟩

/-- C10: `Agent.run` raises for every mode string other than `worker`,
`learner` and `buffer`; it never silently ignores an unknown mode. -/
theorem run_unknown_mode (s : AgentState) (mode : String)
    (h1 : mode ≠ "worker") (h2 : mode ≠ "learner") (h3 : mode ≠ "buffer") :
    Agent.run s mode = .error "unknown mode" := by
  simp [Agent.run, h1, h2, h3]

/-- Witness for C10 at the unknown mode string `train`. -/
theorem run_unknown_mode_witness :
    Agent.run exAgent "train" = .error "unknown mode" :=
  run_unknown_mode exAgent "train" (by decide) (by decide) (by decide)

/-- Auxiliary: the assignment loop of `UpdateConfig` leaves every key that
is not listed in the section unchanged. -/
lemma foldl_assign_not_mem {V : Type} (kvs : List (String × V)) (config : String → Option V)
    (k : String) (hk : k ∉ kvs.map Prod.fst) :
    kvs.foldl (fun c kv => fun k' => if k' = kv.1 then some kv.2 else c k') config k =
      config k := by
  induction kvs generalizing config with
  | nil => rfl
  | cons kv rest ih =>
      simp only [List.map_cons, List.mem_cons, not_or] at hk
      rw [List.foldl_cons, ih _ hk.2]
      simp [hk.1]

/-- Auxiliary: under distinct section keys, the assignment loop of
`UpdateConfig` sets every listed key to its listed value. -/
lemma foldl_assign_mem {V : Type} (kvs : List (String × V)) (config : String → Option V)
    (hnd : (kvs.map Prod.fst).Nodup) (k : String) (v : V) (hm : (k, v) ∈ kvs) :
    kvs.foldl (fun c kv => fun k' => if k' = kv.1 then some kv.2 else c k') config k =
      some v := by
  induction kvs generalizing config with
  | nil => cases hm
  | cons kv rest ih =>
      simp only [List.map_cons, List.nodup_cons] at hnd
      rw [List.foldl_cons]
      rcases List.mem_cons.mp hm with heq | hmem
      · subst heq
        rw [foldl_assign_not_mem rest _ k hnd.1]
        simp
      · exact ih _ hnd.2 hmem

/-- C9: for every configuration dictionary and every file content having
the given `key_name` section, `UpdateConfig` returns the dictionary with
exactly the keys listed in that section overwritten to the file's values,
and every other key unchanged. -/
theorem UpdateConfig_spec {V : Type} (config : String → Option V)
    (fileContent : String → Option (List (String × V))) (key_name : String)
    (kvs : List (String × V)) (hfc : fileContent key_name = some kvs)
    (hnd : (kvs.map Prod.fst).Nodup) :
    ∃ config', UpdateConfig config fileContent key_name = some config' ∧
      (∀ k v, (k, v) ∈ kvs → config' k = some v) ∧
      (∀ k, k ∉ kvs.map Prod.fst → config' k = config k) := by
  refine ⟨kvs.foldl (fun c kv => fun k' => if k' = kv.1 then some kv.2 else c k') config,
    ?_, ?_, ?_⟩
  · rw [UpdateConfig, hfc]
  · exact fun k v hm => foldl_assign_mem kvs config hnd k v hm
  · exact fun k hk => foldl_assign_not_mem kvs config k hk

/-- Witness for C9: updating a concrete configuration from a concrete file
with an `algo` section listing `gamma` and `n_step` overwrites those two
keys and leaves `lr` unchanged. -/
theorem UpdateConfig_spec_witness :
    ∃ config', UpdateConfig exConfig exFile "algo" = some config' ∧
      (∀ k v, (k, v) ∈ [("gamma", 5), ("n_step", 9)] → config' k = some v) ∧
      (∀ k, k ∉ [("gamma", 5), ("n_step", 9)].map Prod.fst → config' k = exConfig k) :=
  UpdateConfig_spec exConfig exFile "algo" [("gamma", 5), ("n_step", 9)] rfl (by decide)

end RLs
